import Mathlib

/-!
Shallow embedding of the Casinocoin-Central scan engine (src/App.tsx and the
type declarations): the paginated scan loop, its cancellation and error paths,
the aggregation pipeline (processResults) and the live-update scheduler.
Balances are JS numbers used only through comparison, negation, absolute value
and division; they are modelled as rationals.  The presentational fields
tierIcon and tierColor of a Holder are omitted, as is the Date timestamp.
-/

namespace CasinocoinCentral

/-- A trustline record as returned by the ledger (types file, XRPLTrustline);
only the fields the scan engine reads are kept. -/
structure XRPLTrustline where
  account : String
  balance : String
deriving DecidableEq

/-- The intermediate record built in the scan loop (App.tsx line 142-148). -/
structure RawHolding where
  account : String
  balance : ℚ
deriving DecidableEq

/-- Wallet type from the KNOWN_WALLETS dictionary. -/
inductive WalletType where
  | cex
  | team
deriving DecidableEq

/-- A processed holder (types file, Holder), without the presentational
tierIcon/tierColor fields. -/
structure Holder where
  rank : Nat
  account : String
  balance : ℚ
  percentage : ℚ
  tier : String
  walletLabel : Option String
  walletType : Option WalletType
deriving DecidableEq

/-- Scan status (types file, FetchStatus). -/
structure FetchStatus where
  isFetching : Bool
  linesFetched : Nat
  statusMessage : String
  error : Option String
  complete : Bool
deriving DecidableEq

/-- The KNOWN_WALLETS dictionary (App.tsx lines 28-39) as a lookup. -/
def knownWallets (account : String) : Option (String × WalletType) :=
  if account = "rCSCManTZ8ME9EoLrSHHYKW8PPwWMgkwr" then some ("Issuer / Foundation", .team)
  else if account = "raLPjTYeGEzf4yt4lqZz5AmfTDMhfq6F7q" then some ("Bitrue", .cex)
  else if account = "rLNaPoKeeBJZe2nz6oXAG9Jy9it8r912Fk" then some ("Bitrue Hot", .cex)
  else if account = "rMdG3ju8pgyVh29ELPWaDuA74CpWW6Fxns" then some ("Uphold", .cex)
  else if account = "rhub8VRN55sF4G7xQ1G1dfyE863FdrVk93" then some ("GateHub", .cex)
  else if account = "rPVMhWBsfF9iMXYj3aAzJVkPDTFNSyWdKy" then some ("Bittrex", .cex)
  else if account = "rNfwFmsgM97YW43d7s1832J8f4i7eG8xG3" then some ("Xumm / XRPL Labs", .cex)
  else none

/-- The issuer / foundation account excluded by the excludeIssuer filter
(App.tsx line 207). -/
def issuerAccount : String := "rCSCManTZ8ME9EoLrSHHYKW8PPwWMgkwr"

/-- Digit list to natural number, most significant first. -/
def digitsToNat (l : List Char) : Nat :=
  l.foldl (fun n c => n * 10 + (c.toNat - 48)) 0

/-- Model of the JS parseFloat builtin on plain decimal literals: an optional
sign, then digits with an optional fractional part, reading a longest numeric
front segment as JS does; none stands for the NaN result when no digit is
found.  Exponent forms are not modelled (balances are plain decimals). -/
def parseFloat (s : String) : Option ℚ :=
  let cs := s.toList
  let signAndRest : Bool × List Char :=
    match cs with
    | '-' :: rest => (true, rest)
    | '+' :: rest => (false, rest)
    | _ => (false, cs)
  let neg := signAndRest.1
  let cs1 := signAndRest.2
  let intPart := cs1.takeWhile Char.isDigit
  let rest1 := cs1.dropWhile Char.isDigit
  let fracPart : List Char :=
    match rest1 with
    | '.' :: r => r.takeWhile Char.isDigit
    | _ => []
  if intPart.isEmpty ∧ fracPart.isEmpty then none
  else
    let num : ℚ := mkRat (Int.ofNat (digitsToNat (intPart ++ fracPart))) (10 ^ fracPart.length)
    some (if neg then -num else num)

/-- The per-line mapping of the scan loop (App.tsx lines 142-148):
rawBalance < 0 ? Math.abs(rawBalance) : 0.  When parseFloat yields NaN the
comparison NaN < 0 is false in JS, so the zero branch is taken. -/
def lineToHolding (line : XRPLTrustline) : RawHolding :=
  { account := line.account,
    balance :=
      match parseFloat line.balance with
      | some rawBalance => if rawBalance < 0 then |rawBalance| else 0
      | none => 0 }

/-- One batch mapped and filtered (App.tsx line 142-148): .filter(h => h.balance > 0). -/
def processBatch (lines : List XRPLTrustline) : List RawHolding :=
  (lines.map lineToHolding).filter (fun h => 0 < h.balance)

/-- The tier if-chain of processResults (App.tsx lines 214-283), returning the
tier label. -/
def classifyTier (balance : ℚ) : String :=
  if 1000000000 ≤ balance then "Kraken"
  else if 500000000 ≤ balance then "Megalodon"
  else if 250000000 ≤ balance then "Sperm Whale"
  else if 100000000 ≤ balance then "Whale"
  else if 50000000 ≤ balance then "Orca"
  else if 25000000 ≤ balance then "Shark"
  else if 10000000 ≤ balance then "Dolphin"
  else if 5000000 ≤ balance then "Swordfish"
  else if 1000000 ≤ balance then "Turtle"
  else if 500000 ≤ balance then "Octopus"
  else if 100000 ≤ balance then "Crab"
  else if 50000 ≤ balance then "Shrimp"
  else if 10000 ≤ balance then "Plankton"
  else "Microbe"

/-- Numeric level of the tier chain: 13 for the highest threshold met, 0 for
the default tier, following the same guards as classifyTier. -/
def tierLevel (balance : ℚ) : Nat :=
  if 1000000000 ≤ balance then 13
  else if 500000000 ≤ balance then 12
  else if 250000000 ≤ balance then 11
  else if 100000000 ≤ balance then 10
  else if 50000000 ≤ balance then 9
  else if 25000000 ≤ balance then 8
  else if 10000000 ≤ balance then 7
  else if 5000000 ≤ balance then 6
  else if 1000000 ≤ balance then 5
  else if 500000 ≤ balance then 4
  else if 100000 ≤ balance then 3
  else if 50000 ≤ balance then 2
  else if 10000 ≤ balance then 1
  else 0

/-- Tier label of each level, lowest tier first. -/
def tierName (level : Nat) : String :=
  match level with
  | 13 => "Kraken"
  | 12 => "Megalodon"
  | 11 => "Sperm Whale"
  | 10 => "Whale"
  | 9 => "Orca"
  | 8 => "Shark"
  | 7 => "Dolphin"
  | 6 => "Swordfish"
  | 5 => "Turtle"
  | 4 => "Octopus"
  | 3 => "Crab"
  | 2 => "Shrimp"
  | 1 => "Plankton"
  | _ => "Microbe"

/-- Descending order of the sort in processResults (App.tsx line 204): the
comparator (a, b) => b.balance - a.balance puts a before b when
b.balance ≤ a.balance. -/
def holderGE (a b : RawHolding) : Prop := b.balance ≤ a.balance

instance : DecidableRel holderGE :=
  fun a b => inferInstanceAs (Decidable (b.balance ≤ a.balance))

instance : IsTotal RawHolding holderGE :=
  ⟨fun a b => le_total b.balance a.balance⟩

instance : IsTrans RawHolding holderGE :=
  ⟨fun _ _ _ h1 h2 => le_trans h2 h1⟩

/-- rawHolders.sort((a, b) => b.balance - a.balance) (App.tsx line 204).
JS Array.prototype.sort is stable, so it is modelled by a stable sort under
the comparator's order. -/
def sortedHoldings (raw : List RawHolding) : List RawHolding :=
  raw.insertionSort holderGE

/-- The sorted sequence after the optional issuer filter (App.tsx lines 204-208). -/
def selectedHoldings (raw : List RawHolding) (excludeIssuer : Bool) : List RawHolding :=
  if excludeIssuer then (sortedHoldings raw).filter (fun h => h.account ≠ issuerAccount)
  else sortedHoldings raw

/-- metrics?.totalSupply || 65_000_000_000 (App.tsx line 210); the JS || also
replaces a zero totalSupply by the fallback. -/
def supplyBasisOf (metricsTotalSupply : Option ℚ) : ℚ :=
  match metricsTotalSupply with
  | some t => if t = 0 then 65000000000 else t
  | none => 65000000000

/-- One Holder of the sorted.map of processResults (App.tsx lines 212-296):
rank = index + 1, percentage = balance / supplyBasis * 100, tier from the
threshold chain, label and type from KNOWN_WALLETS. -/
def mkHolder (supplyBasis : ℚ) (rank : Nat) (h : RawHolding) : Holder :=
  { rank := rank,
    account := h.account,
    balance := h.balance,
    percentage := h.balance / supplyBasis * 100,
    tier := classifyTier h.balance,
    walletLabel := (knownWallets h.account).map Prod.fst,
    walletType := (knownWallets h.account).map Prod.snd }

/-- sorted.map((h, index) => ...) with rank = index + 1 (App.tsx line 286),
threading the 0-based index explicitly. -/
def rankFrom (supplyBasis : ℚ) : Nat → List RawHolding → List Holder
  | _, [] => []
  | i, h :: rest => mkHolder supplyBasis (i + 1) h :: rankFrom supplyBasis (i + 1) rest

/-- The mutable state of the App component that the scan engine touches:
holders, fetchStatus, isLiveUpdate, excludeIssuer, the metrics totalSupply
snapshot, and whether an AbortController has been armed (the ref is non-null). -/
structure AppState where
  holders : List Holder
  fetchStatus : FetchStatus
  isLiveUpdate : Bool
  excludeIssuer : Bool
  metricsTotalSupply : Option ℚ
  abortArmed : Bool
deriving DecidableEq

/-- processResults (App.tsx lines 196-306): sort, optional issuer filter,
rank/percentage/tier mapping, then a wholesale replacement of holders and
fetchStatus (the final setFetchStatus carries no error field).  The transient
"Processing rich list data..." message set at entry on initial scans is
immediately overwritten in the same call and is not recorded separately. -/
def processResults (st : AppState) (rawHolders : List RawHolding) : AppState :=
  let sorted := selectedHoldings rawHolders st.excludeIssuer
  let supplyBasis := supplyBasisOf st.metricsTotalSupply
  let processed := rankFrom supplyBasis 0 sorted
  { st with
    holders := processed,
    fetchStatus :=
      { isFetching := false,
        linesFetched := processed.length,
        statusMessage := "Scan complete.",
        error := none,
        complete := true } }

/-- One page of the model fetcher: what fetchTrustlinesBatch returns for the
successive calls of the loop. -/
structure Batch where
  lines : List XRPLTrustline
  nextMarker : Option String
deriving DecidableEq

/-- Outcome of the while loop in startScan: the accumulated allLines on normal
exit, or the message of the thrown error (cancellation or fetch failure). -/
inductive ScanOutcome where
  | success (allLines : List RawHolding)
  | error (msg : String)
deriving DecidableEq

/-- The progress message of App.tsx line 158. -/
def scanMsg (n : Nat) : String :=
  "Scanning ledger... found " ++ toString n ++ " holders so far"

/-- Whether the abort signal is observed at the cancellation check of loop
iteration step: cancelAt = some k means the signal was raised before the
check of iteration k. -/
def cancelObserved (cancelAt : Option Nat) (step : Nat) : Bool :=
  match cancelAt with
  | some k => decide (k ≤ step)
  | none => false

/-- The in-loop progress setFetchStatus (App.tsx lines 154-160): updated only
on initial scans; background updates keep the status unchanged. -/
def progressStatus (isBackgroundUpdate : Bool) (fs : FetchStatus) (n : Nat) : FetchStatus :=
  if isBackgroundUpdate then fs
  else { fs with linesFetched := n, statusMessage := scanMsg n }

/-- The trace of statuses published by the in-loop setFetchStatus calls: one
entry is appended per page on initial scans, none on background updates. -/
def progressTrace (isBackgroundUpdate : Bool) (trace : List FetchStatus)
    (fs2 : FetchStatus) : List FetchStatus :=
  if isBackgroundUpdate then trace else trace ++ [fs2]

/-- The while (hasMore) loop of startScan (App.tsx lines 135-167).  The
successive batches the fetcher would return are given as a list; requesting a
batch beyond the list models a fetch failure.  Each iteration: cancellation
check before the fetch (throwing "Scan aborted by user"), fetch, map+filter
the page, append, and on initial scans a progress setFetchStatus; the loop
ends when a batch has no nextMarker.  Returns the outcome, the fetchStatus
after the loop, and the trace of statuses published inside the loop. -/
def runLoop (cancelAt : Option Nat) (isBackgroundUpdate : Bool) :
    List Batch → Nat → List RawHolding → FetchStatus → List FetchStatus →
    ScanOutcome × FetchStatus × List FetchStatus
  | [], step, _, fs, trace =>
    if cancelObserved cancelAt step then (.error "Scan aborted by user", fs, trace)
    else (.error "Failed to fetch trustlines batch", fs, trace)
  | b :: rest, step, allLines, fs, trace =>
    if cancelObserved cancelAt step then (.error "Scan aborted by user", fs, trace)
    else
      let allLines2 := allLines ++ processBatch b.lines
      let fs2 := progressStatus isBackgroundUpdate fs allLines2.length
      let trace2 := progressTrace isBackgroundUpdate trace fs2
      match b.nextMarker with
      | some _ => runLoop cancelAt isBackgroundUpdate rest (step + 1) allLines2 fs2 trace2
      | none => (.success allLines2, fs2, trace2)

/-- Whether a loop outcome is the thrown-error case. -/
def scanFailed : ScanOutcome → Bool
  | .success _ => false
  | .error _ => true

/-- The progress statuses an uncancelled initial scan publishes: one per page,
with the cumulative holder count so far, starting from count n. -/
def expectedTrace (fs : FetchStatus) (n : Nat) : List Batch → List FetchStatus
  | [] => []
  | b :: rest =>
    let n2 := n + (processBatch b.lines).length
    let fs2 := { fs with linesFetched := n2, statusMessage := scanMsg n2 }
    fs2 :: (match b.nextMarker with
            | some _ => expectedTrace fs2 n2 rest
            | none => [])

/-- isBackgroundUpdate = holders.length > 0 (App.tsx line 118). -/
def isBackground (st : AppState) : Bool := decide (0 < st.holders.length)

/-- The status set at scan start (App.tsx lines 120-126): the object literal
has no error field, and on background updates the prior message is kept. -/
def initialStatus (st : AppState) : FetchStatus :=
  { isFetching := true,
    linesFetched := 0,
    statusMessage :=
      if isBackground st then st.fetchStatus.statusMessage
      else "Initializing connection to XRPL...",
    error := none,
    complete := false }

/-- startScan (App.tsx lines 114-181): no-op while fetching; otherwise reset
status, arm a fresh AbortController, run the loop; on success hand allLines to
processResults; on any thrown error (cancellation included) set the error
status and disable live update.  Returns the new state and the trace of the
in-loop progress statuses. -/
def startScan (st : AppState) (batches : List Batch) (cancelAt : Option Nat) :
    AppState × List FetchStatus :=
  if st.fetchStatus.isFetching then (st, [])
  else
    let bg := isBackground st
    let fs0 := initialStatus st
    let st1 : AppState := { st with fetchStatus := fs0, abortArmed := true }
    match runLoop cancelAt bg batches 0 [] fs0 [] with
    | (.success allLines, fsEnd, trace) =>
      (processResults { st1 with fetchStatus := fsEnd } allLines, trace)
    | (.error msg, fsEnd, trace) =>
      ({ st1 with
          fetchStatus :=
            { fsEnd with
                isFetching := false,
                statusMessage := "Error during scan.",
                error := some msg },
          isLiveUpdate := false }, trace)

/-- stopScan (App.tsx lines 183-194): when an AbortController exists, abort it
(modelled by the caller passing a cancelAt to the running loop), set the
stopped status and disable live update. -/
def stopScan (st : AppState) : AppState :=
  if st.abortArmed then
    { st with
      fetchStatus :=
        { st.fetchStatus with
            isFetching := false,
            statusMessage := "Scan stopped by user.",
            complete := false },
      isLiveUpdate := false }
  else st

/-- The dependency tuple of the live-update useEffect (App.tsx line 103). -/
structure Deps where
  isLiveUpdate : Bool
  isFetching : Bool
  complete : Bool
  holdersLength : Nat
deriving DecidableEq

/-- What one run of the live-update effect body does (App.tsx lines 85-103). -/
inductive LiveAction where
  | armTimer (delayMs : Nat)
  | startNow
  | idle
deriving DecidableEq

/-- The decision logic of the effect body: if live update is on and not
fetching, arm a 10000 ms timer when complete, else start immediately when no
holder data exists yet. -/
def liveUpdateAction (d : Deps) : LiveAction :=
  if d.isLiveUpdate && !d.isFetching then
    if d.complete then .armTimer 10000
    else if d.holdersLength = 0 then .startNow
    else .idle
  else .idle

/-- Scheduler state: current time, the absolute fire time of the at most one
pending timeout armed by the last effect run, and the times at which
startScan was invoked by the scheduler. -/
structure SchedState where
  now : Nat
  pendingFire : Option Nat
  scanStarts : List Nat
deriving DecidableEq

/-- Events the scheduler reacts to: a change of the effect dependencies at
time t (the effect cleanup clears the previous run's timeout, then the body
runs), or time advancing to t (firing the pending timeout once its delay has
elapsed). -/
inductive SchedEvent where
  | depsChange (d : Deps) (t : Nat)
  | advance (t : Nat)
deriving DecidableEq

/-- One scheduler step. -/
def schedStep (s : SchedState) : SchedEvent → SchedState
  | .depsChange d t =>
    let s1 : SchedState := { s with now := t, pendingFire := none }
    match liveUpdateAction d with
    | .armTimer delay => { s1 with pendingFire := some (t + delay) }
    | .startNow => { s1 with scanStarts := s1.scanStarts ++ [t] }
    | .idle => s1
  | .advance t =>
    match s.pendingFire with
    | some ft =>
      if ft ≤ t then { now := t, pendingFire := none, scanStarts := s.scanStarts ++ [ft] }
      else { s with now := t }
    | none => { s with now := t }

/-- Run the scheduler over a list of events. -/
def schedRun (s : SchedState) : List SchedEvent → SchedState
  | [] => s
  | e :: es => schedRun (schedStep s e) es

/-! ### Helper lemmas -/

theorem rankFrom_length (sb : ℚ) : ∀ (i : Nat) (l : List RawHolding),
    (rankFrom sb i l).length = l.length
  | _, [] => rfl
  | i, _ :: rest => by
    simp only [rankFrom, List.length_cons, rankFrom_length sb (i + 1) rest]

theorem rankFrom_map_rank (sb : ℚ) : ∀ (i : Nat) (l : List RawHolding),
    (rankFrom sb i l).map (fun h => h.rank) = List.range' (i + 1) l.length
  | _, [] => rfl
  | i, _ :: rest => by
    simp only [rankFrom, List.map_cons, mkHolder, List.length_cons, List.range'_succ,
      rankFrom_map_rank sb (i + 1) rest]

theorem rankFrom_map_ab (sb : ℚ) : ∀ (i : Nat) (l : List RawHolding),
    (rankFrom sb i l).map (fun h => (h.account, h.balance))
      = l.map (fun h => (h.account, h.balance))
  | _, [] => rfl
  | i, _ :: rest => by
    simp only [rankFrom, List.map_cons, mkHolder, rankFrom_map_ab sb (i + 1) rest]

theorem rankFrom_map_balance (sb : ℚ) : ∀ (i : Nat) (l : List RawHolding),
    (rankFrom sb i l).map (fun h => h.balance) = l.map (fun h => h.balance)
  | _, [] => rfl
  | i, _ :: rest => by
    simp only [rankFrom, List.map_cons, mkHolder, rankFrom_map_balance sb (i + 1) rest]

theorem sortedHoldings_pairwise (raw : List RawHolding) :
    (sortedHoldings raw).Pairwise holderGE :=
  List.sorted_insertionSort holderGE raw

theorem sortedHoldings_perm (raw : List RawHolding) :
    List.Perm (sortedHoldings raw) raw :=
  List.perm_insertionSort holderGE raw

theorem selectedHoldings_pairwise (raw : List RawHolding) (e : Bool) :
    (selectedHoldings raw e).Pairwise holderGE := by
  unfold selectedHoldings
  split
  · exact (sortedHoldings_pairwise raw).filter _
  · exact sortedHoldings_pairwise raw

/-! ### Scan-loop lemmas -/

theorem progressStatus_complete (bg : Bool) (fs : FetchStatus) (n : Nat) :
    (progressStatus bg fs n).complete = fs.complete := by
  unfold progressStatus
  split <;> rfl

theorem runLoop_complete (c : Option Nat) (bg : Bool) :
    ∀ (batches : List Batch) (step : Nat) (acc : List RawHolding) (fs : FetchStatus)
      (tr : List FetchStatus), ((runLoop c bg batches step acc fs tr).2.1).complete = fs.complete
  | [], step, acc, fs, tr => by
    simp only [runLoop]
    split <;> rfl
  | b :: rest, step, acc, fs, tr => by
    simp only [runLoop]
    split
    · rfl
    · cases hm : b.nextMarker with
      | some m =>
        simp only [hm]
        rw [runLoop_complete c bg rest (step + 1) _ _ _, progressStatus_complete]
      | none =>
        simp only [hm, progressStatus_complete]

theorem runLoop_bg_quiet (c : Option Nat) :
    ∀ (batches : List Batch) (step : Nat) (acc : List RawHolding) (fs : FetchStatus)
      (tr : List FetchStatus),
      (runLoop c true batches step acc fs tr).2.1 = fs
      ∧ (runLoop c true batches step acc fs tr).2.2 = tr
  | [], step, acc, fs, tr => by
    simp only [runLoop]
    split <;> exact ⟨rfl, rfl⟩
  | b :: rest, step, acc, fs, tr => by
    simp only [runLoop]
    split
    · exact ⟨rfl, rfl⟩
    · cases hm : b.nextMarker with
      | some m =>
        simp only [hm, progressStatus, progressTrace, if_pos]
        exact runLoop_bg_quiet c rest (step + 1) _ _ _
      | none =>
        simp [hm, progressStatus, progressTrace]

theorem runLoop_fg_trace :
    ∀ (batches : List Batch) (step : Nat) (acc : List RawHolding) (fs : FetchStatus)
      (tr : List FetchStatus),
      (runLoop none false batches step acc fs tr).2.2 = tr ++ expectedTrace fs acc.length batches
  | [], step, acc, fs, tr => by
    simp [runLoop, cancelObserved, expectedTrace]
  | b :: rest, step, acc, fs, tr => by
    simp only [runLoop, cancelObserved, Bool.false_eq_true, if_false]
    cases hm : b.nextMarker with
    | some m =>
      simp only [hm]
      rw [runLoop_fg_trace rest (step + 1) _ _ _]
      simp [expectedTrace, hm, progressStatus, progressTrace, List.length_append,
        List.append_assoc]
    | none =>
      simp [expectedTrace, hm, progressStatus, progressTrace, List.length_append]

theorem runLoop_failed_congr (c : Option Nat) (bg : Bool)
    (g : List XRPLTrustline → List XRPLTrustline) :
    ∀ (batches : List Batch) (step : Nat) (acc1 acc2 : List RawHolding)
      (fs1 fs2 : FetchStatus) (tr1 tr2 : List FetchStatus),
      scanFailed (runLoop c bg (batches.map fun b => ⟨g b.lines, b.nextMarker⟩)
          step acc1 fs1 tr1).1
        = scanFailed (runLoop c bg batches step acc2 fs2 tr2).1
  | [], step, acc1, acc2, fs1, fs2, tr1, tr2 => by
    simp only [List.map_nil, runLoop]
    split <;> rfl
  | b :: rest, step, acc1, acc2, fs1, fs2, tr1, tr2 => by
    simp only [List.map_cons, runLoop]
    split
    · rfl
    · cases hm : b.nextMarker with
      | some m =>
        simp only [hm]
        exact runLoop_failed_congr c bg g rest (step + 1) _ _ _ _ _ _
      | none =>
        simp [hm, scanFailed]

/-! ### C5: tier classification -/

/-- Exhaustive interval analysis of the tier chain: every balance falls in
exactly one threshold interval, with the tierLevel and classifyTier values it
produces there. -/
theorem tier_interval_cases (x : ℚ) :
    (1000000000 ≤ x ∧ True ∧ tierLevel x = 13 ∧ classifyTier x = "Kraken")
    ∨ (500000000 ≤ x ∧ x < 1000000000 ∧ tierLevel x = 12 ∧ classifyTier x = "Megalodon")
    ∨ (250000000 ≤ x ∧ x < 500000000 ∧ tierLevel x = 11 ∧ classifyTier x = "Sperm Whale")
    ∨ (100000000 ≤ x ∧ x < 250000000 ∧ tierLevel x = 10 ∧ classifyTier x = "Whale")
    ∨ (50000000 ≤ x ∧ x < 100000000 ∧ tierLevel x = 9 ∧ classifyTier x = "Orca")
    ∨ (25000000 ≤ x ∧ x < 50000000 ∧ tierLevel x = 8 ∧ classifyTier x = "Shark")
    ∨ (10000000 ≤ x ∧ x < 25000000 ∧ tierLevel x = 7 ∧ classifyTier x = "Dolphin")
    ∨ (5000000 ≤ x ∧ x < 10000000 ∧ tierLevel x = 6 ∧ classifyTier x = "Swordfish")
    ∨ (1000000 ≤ x ∧ x < 5000000 ∧ tierLevel x = 5 ∧ classifyTier x = "Turtle")
    ∨ (500000 ≤ x ∧ x < 1000000 ∧ tierLevel x = 4 ∧ classifyTier x = "Octopus")
    ∨ (100000 ≤ x ∧ x < 500000 ∧ tierLevel x = 3 ∧ classifyTier x = "Crab")
    ∨ (50000 ≤ x ∧ x < 100000 ∧ tierLevel x = 2 ∧ classifyTier x = "Shrimp")
    ∨ (10000 ≤ x ∧ x < 50000 ∧ tierLevel x = 1 ∧ classifyTier x = "Plankton")
    ∨ (True ∧ x < 10000 ∧ tierLevel x = 0 ∧ classifyTier x = "Microbe") := by
  rcases le_or_lt 1000000000 x with h13 | h13
  · refine Or.inl ⟨h13, trivial, ?_, ?_⟩
    · unfold tierLevel
      rw [if_pos h13]
    · unfold classifyTier
      rw [if_pos h13]
  rcases le_or_lt 500000000 x with h12 | h12
  · refine Or.inr (Or.inl ⟨h12, h13, ?_, ?_⟩)
    · unfold tierLevel
      rw [if_neg (not_le.mpr h13), if_pos h12]
    · unfold classifyTier
      rw [if_neg (not_le.mpr h13), if_pos h12]
  rcases le_or_lt 250000000 x with h11 | h11
  · refine Or.inr (Or.inr (Or.inl ⟨h11, h12, ?_, ?_⟩))
    · unfold tierLevel
      rw [if_neg (not_le.mpr h13), if_neg (not_le.mpr h12), if_pos h11]
    · unfold classifyTier
      rw [if_neg (not_le.mpr h13), if_neg (not_le.mpr h12), if_pos h11]
  rcases le_or_lt 100000000 x with h10 | h10
  · refine Or.inr (Or.inr (Or.inr (Or.inl ⟨h10, h11, ?_, ?_⟩)))
    · unfold tierLevel
      rw [if_neg (not_le.mpr h13), if_neg (not_le.mpr h12), if_neg (not_le.mpr h11), if_pos h10]
    · unfold classifyTier
      rw [if_neg (not_le.mpr h13), if_neg (not_le.mpr h12), if_neg (not_le.mpr h11), if_pos h10]
  rcases le_or_lt 50000000 x with h9 | h9
  · refine Or.inr (Or.inr (Or.inr (Or.inr (Or.inl ⟨h9, h10, ?_, ?_⟩))))
    · unfold tierLevel
      rw [if_neg (not_le.mpr h13), if_neg (not_le.mpr h12), if_neg (not_le.mpr h11), if_neg (not_le.mpr h10), if_pos h9]
    · unfold classifyTier
      rw [if_neg (not_le.mpr h13), if_neg (not_le.mpr h12), if_neg (not_le.mpr h11), if_neg (not_le.mpr h10), if_pos h9]
  rcases le_or_lt 25000000 x with h8 | h8
  · refine Or.inr (Or.inr (Or.inr (Or.inr (Or.inr (Or.inl ⟨h8, h9, ?_, ?_⟩)))))
    · unfold tierLevel
      rw [if_neg (not_le.mpr h13), if_neg (not_le.mpr h12), if_neg (not_le.mpr h11), if_neg (not_le.mpr h10), if_neg (not_le.mpr h9), if_pos h8]
    · unfold classifyTier
      rw [if_neg (not_le.mpr h13), if_neg (not_le.mpr h12), if_neg (not_le.mpr h11), if_neg (not_le.mpr h10), if_neg (not_le.mpr h9), if_pos h8]
  rcases le_or_lt 10000000 x with h7 | h7
  · refine Or.inr (Or.inr (Or.inr (Or.inr (Or.inr (Or.inr (Or.inl ⟨h7, h8, ?_, ?_⟩))))))
    · unfold tierLevel
      rw [if_neg (not_le.mpr h13), if_neg (not_le.mpr h12), if_neg (not_le.mpr h11), if_neg (not_le.mpr h10), if_neg (not_le.mpr h9), if_neg (not_le.mpr h8), if_pos h7]
    · unfold classifyTier
      rw [if_neg (not_le.mpr h13), if_neg (not_le.mpr h12), if_neg (not_le.mpr h11), if_neg (not_le.mpr h10), if_neg (not_le.mpr h9), if_neg (not_le.mpr h8), if_pos h7]
  rcases le_or_lt 5000000 x with h6 | h6
  · refine Or.inr (Or.inr (Or.inr (Or.inr (Or.inr (Or.inr (Or.inr (Or.inl ⟨h6, h7, ?_, ?_⟩)))))))
    · unfold tierLevel
      rw [if_neg (not_le.mpr h13), if_neg (not_le.mpr h12), if_neg (not_le.mpr h11), if_neg (not_le.mpr h10), if_neg (not_le.mpr h9), if_neg (not_le.mpr h8), if_neg (not_le.mpr h7), if_pos h6]
    · unfold classifyTier
      rw [if_neg (not_le.mpr h13), if_neg (not_le.mpr h12), if_neg (not_le.mpr h11), if_neg (not_le.mpr h10), if_neg (not_le.mpr h9), if_neg (not_le.mpr h8), if_neg (not_le.mpr h7), if_pos h6]
  rcases le_or_lt 1000000 x with h5 | h5
  · refine Or.inr (Or.inr (Or.inr (Or.inr (Or.inr (Or.inr (Or.inr (Or.inr (Or.inl ⟨h5, h6, ?_, ?_⟩))))))))
    · unfold tierLevel
      rw [if_neg (not_le.mpr h13), if_neg (not_le.mpr h12), if_neg (not_le.mpr h11), if_neg (not_le.mpr h10), if_neg (not_le.mpr h9), if_neg (not_le.mpr h8), if_neg (not_le.mpr h7), if_neg (not_le.mpr h6), if_pos h5]
    · unfold classifyTier
      rw [if_neg (not_le.mpr h13), if_neg (not_le.mpr h12), if_neg (not_le.mpr h11), if_neg (not_le.mpr h10), if_neg (not_le.mpr h9), if_neg (not_le.mpr h8), if_neg (not_le.mpr h7), if_neg (not_le.mpr h6), if_pos h5]
  rcases le_or_lt 500000 x with h4 | h4
  · refine Or.inr (Or.inr (Or.inr (Or.inr (Or.inr (Or.inr (Or.inr (Or.inr (Or.inr (Or.inl ⟨h4, h5, ?_, ?_⟩)))))))))
    · unfold tierLevel
      rw [if_neg (not_le.mpr h13), if_neg (not_le.mpr h12), if_neg (not_le.mpr h11), if_neg (not_le.mpr h10), if_neg (not_le.mpr h9), if_neg (not_le.mpr h8), if_neg (not_le.mpr h7), if_neg (not_le.mpr h6), if_neg (not_le.mpr h5), if_pos h4]
    · unfold classifyTier
      rw [if_neg (not_le.mpr h13), if_neg (not_le.mpr h12), if_neg (not_le.mpr h11), if_neg (not_le.mpr h10), if_neg (not_le.mpr h9), if_neg (not_le.mpr h8), if_neg (not_le.mpr h7), if_neg (not_le.mpr h6), if_neg (not_le.mpr h5), if_pos h4]
  rcases le_or_lt 100000 x with h3 | h3
  · refine Or.inr (Or.inr (Or.inr (Or.inr (Or.inr (Or.inr (Or.inr (Or.inr (Or.inr (Or.inr (Or.inl ⟨h3, h4, ?_, ?_⟩))))))))))
    · unfold tierLevel
      rw [if_neg (not_le.mpr h13), if_neg (not_le.mpr h12), if_neg (not_le.mpr h11), if_neg (not_le.mpr h10), if_neg (not_le.mpr h9), if_neg (not_le.mpr h8), if_neg (not_le.mpr h7), if_neg (not_le.mpr h6), if_neg (not_le.mpr h5), if_neg (not_le.mpr h4), if_pos h3]
    · unfold classifyTier
      rw [if_neg (not_le.mpr h13), if_neg (not_le.mpr h12), if_neg (not_le.mpr h11), if_neg (not_le.mpr h10), if_neg (not_le.mpr h9), if_neg (not_le.mpr h8), if_neg (not_le.mpr h7), if_neg (not_le.mpr h6), if_neg (not_le.mpr h5), if_neg (not_le.mpr h4), if_pos h3]
  rcases le_or_lt 50000 x with h2 | h2
  · refine Or.inr (Or.inr (Or.inr (Or.inr (Or.inr (Or.inr (Or.inr (Or.inr (Or.inr (Or.inr (Or.inr (Or.inl ⟨h2, h3, ?_, ?_⟩)))))))))))
    · unfold tierLevel
      rw [if_neg (not_le.mpr h13), if_neg (not_le.mpr h12), if_neg (not_le.mpr h11), if_neg (not_le.mpr h10), if_neg (not_le.mpr h9), if_neg (not_le.mpr h8), if_neg (not_le.mpr h7), if_neg (not_le.mpr h6), if_neg (not_le.mpr h5), if_neg (not_le.mpr h4), if_neg (not_le.mpr h3), if_pos h2]
    · unfold classifyTier
      rw [if_neg (not_le.mpr h13), if_neg (not_le.mpr h12), if_neg (not_le.mpr h11), if_neg (not_le.mpr h10), if_neg (not_le.mpr h9), if_neg (not_le.mpr h8), if_neg (not_le.mpr h7), if_neg (not_le.mpr h6), if_neg (not_le.mpr h5), if_neg (not_le.mpr h4), if_neg (not_le.mpr h3), if_pos h2]
  rcases le_or_lt 10000 x with h1 | h1
  · refine Or.inr (Or.inr (Or.inr (Or.inr (Or.inr (Or.inr (Or.inr (Or.inr (Or.inr (Or.inr (Or.inr (Or.inr (Or.inl ⟨h1, h2, ?_, ?_⟩))))))))))))
    · unfold tierLevel
      rw [if_neg (not_le.mpr h13), if_neg (not_le.mpr h12), if_neg (not_le.mpr h11), if_neg (not_le.mpr h10), if_neg (not_le.mpr h9), if_neg (not_le.mpr h8), if_neg (not_le.mpr h7), if_neg (not_le.mpr h6), if_neg (not_le.mpr h5), if_neg (not_le.mpr h4), if_neg (not_le.mpr h3), if_neg (not_le.mpr h2), if_pos h1]
    · unfold classifyTier
      rw [if_neg (not_le.mpr h13), if_neg (not_le.mpr h12), if_neg (not_le.mpr h11), if_neg (not_le.mpr h10), if_neg (not_le.mpr h9), if_neg (not_le.mpr h8), if_neg (not_le.mpr h7), if_neg (not_le.mpr h6), if_neg (not_le.mpr h5), if_neg (not_le.mpr h4), if_neg (not_le.mpr h3), if_neg (not_le.mpr h2), if_pos h1]
  refine Or.inr (Or.inr (Or.inr (Or.inr (Or.inr (Or.inr (Or.inr (Or.inr (Or.inr (Or.inr (Or.inr (Or.inr (Or.inr (⟨trivial, h1, ?_, ?_⟩)))))))))))))
  · unfold tierLevel
    rw [if_neg (not_le.mpr h13), if_neg (not_le.mpr h12), if_neg (not_le.mpr h11), if_neg (not_le.mpr h10), if_neg (not_le.mpr h9), if_neg (not_le.mpr h8), if_neg (not_le.mpr h7), if_neg (not_le.mpr h6), if_neg (not_le.mpr h5), if_neg (not_le.mpr h4), if_neg (not_le.mpr h3), if_neg (not_le.mpr h2), if_neg (not_le.mpr h1)]
  · unfold classifyTier
    rw [if_neg (not_le.mpr h13), if_neg (not_le.mpr h12), if_neg (not_le.mpr h11), if_neg (not_le.mpr h10), if_neg (not_le.mpr h9), if_neg (not_le.mpr h8), if_neg (not_le.mpr h7), if_neg (not_le.mpr h6), if_neg (not_le.mpr h5), if_neg (not_le.mpr h4), if_neg (not_le.mpr h3), if_neg (not_le.mpr h2), if_neg (not_le.mpr h1)]


theorem tierLevel_mono (a b : ℚ) (hba : b ≤ a) : tierLevel b ≤ tierLevel a := by
  rcases tier_interval_cases b with ⟨hbl, hbh, hbv, -⟩ | ⟨hbl, hbh, hbv, -⟩ | ⟨hbl, hbh, hbv, -⟩ | ⟨hbl, hbh, hbv, -⟩ | ⟨hbl, hbh, hbv, -⟩ | ⟨hbl, hbh, hbv, -⟩ | ⟨hbl, hbh, hbv, -⟩ | ⟨hbl, hbh, hbv, -⟩ | ⟨hbl, hbh, hbv, -⟩ | ⟨hbl, hbh, hbv, -⟩ | ⟨hbl, hbh, hbv, -⟩ | ⟨hbl, hbh, hbv, -⟩ | ⟨hbl, hbh, hbv, -⟩ | ⟨hbl, hbh, hbv, -⟩ <;>
  rcases tier_interval_cases a with ⟨hal, hah, hav, -⟩ | ⟨hal, hah, hav, -⟩ | ⟨hal, hah, hav, -⟩ | ⟨hal, hah, hav, -⟩ | ⟨hal, hah, hav, -⟩ | ⟨hal, hah, hav, -⟩ | ⟨hal, hah, hav, -⟩ | ⟨hal, hah, hav, -⟩ | ⟨hal, hah, hav, -⟩ | ⟨hal, hah, hav, -⟩ | ⟨hal, hah, hav, -⟩ | ⟨hal, hah, hav, -⟩ | ⟨hal, hah, hav, -⟩ | ⟨hal, hah, hav, -⟩ <;>
  rw [hbv, hav] <;>
  first | omega | linarith

theorem classifyTier_eq_tierName (x : ℚ) : classifyTier x = tierName (tierLevel x) := by
  rcases tier_interval_cases x with ⟨hl, hh, hv, hc⟩ | ⟨hl, hh, hv, hc⟩ | ⟨hl, hh, hv, hc⟩ | ⟨hl, hh, hv, hc⟩ | ⟨hl, hh, hv, hc⟩ | ⟨hl, hh, hv, hc⟩ | ⟨hl, hh, hv, hc⟩ | ⟨hl, hh, hv, hc⟩ | ⟨hl, hh, hv, hc⟩ | ⟨hl, hh, hv, hc⟩ | ⟨hl, hh, hv, hc⟩ | ⟨hl, hh, hv, hc⟩ | ⟨hl, hh, hv, hc⟩ | ⟨hl, hh, hv, hc⟩ <;>
  rw [hv, hc] <;> rfl

theorem classifyTier_below (x : ℚ) (hx : x < 10000) : classifyTier x = "Microbe" := by
  rcases tier_interval_cases x with ⟨hl, -, -, hc⟩ | ⟨hl, -, -, hc⟩ | ⟨hl, -, -, hc⟩ | ⟨hl, -, -, hc⟩ | ⟨hl, -, -, hc⟩ | ⟨hl, -, -, hc⟩ | ⟨hl, -, -, hc⟩ | ⟨hl, -, -, hc⟩ | ⟨hl, -, -, hc⟩ | ⟨hl, -, -, hc⟩ | ⟨hl, -, -, hc⟩ | ⟨hl, -, -, hc⟩ | ⟨hl, -, -, hc⟩ | ⟨-, -, -, hc⟩ <;>
  first | exact hc | linarith

/-- C5 (tier monotonicity): tier classification is a monotone pure function of
the balance over the fixed 13-threshold table: for balances b ≤ a the level of
a (its position above the default tier) is at least that of b, classifyTier
returns exactly the label of that level, and any balance below the lowest
threshold 10000 receives the default lowest tier "Microbe". -/
theorem C5_tier_monotone :
    (∀ a b : ℚ, b ≤ a → tierLevel b ≤ tierLevel a)
    ∧ (∀ x : ℚ, classifyTier x = tierName (tierLevel x))
    ∧ (∀ x : ℚ, x < 10000 → classifyTier x = "Microbe") :=
  ⟨fun a b hba => tierLevel_mono a b hba, classifyTier_eq_tierName, classifyTier_below⟩

/-- Witness for C5 at concrete balances. -/
theorem C5_tier_monotone_witness :
    tierLevel 400 ≤ tierLevel 50000
    ∧ classifyTier 123456 = tierName (tierLevel 123456)
    ∧ classifyTier 9999 = "Microbe" :=
  ⟨C5_tier_monotone.1 50000 400 (by norm_num),
   C5_tier_monotone.2.1 123456,
   C5_tier_monotone.2.2 9999 (by norm_num)⟩

/-! ### Concrete states and fixtures used by witnesses and counterexamples -/

/-- An idle initial app state: nothing fetched yet, issuer filter off, a
metrics snapshot with totalSupply 1000. -/
def idleState : AppState :=
  { holders := [],
    fetchStatus := { isFetching := false, linesFetched := 0, statusMessage := "",
                     error := none, complete := false },
    isLiveUpdate := false, excludeIssuer := false,
    metricsTotalSupply := some 1000, abortArmed := false }

/-! ### C1: aggregation is sorted with contiguous ranks -/

/-- C1: for every raw holding set and app state, aggregation (processResults)
produces a holder list whose balances are sorted descending, whose rank fields
are exactly the contiguous integers 1..N, and whose account/balance content is
exactly the sorted (and optionally issuer-filtered) input; ties keep input
order: any pair of equal-balance holdings appearing in the input in one order
appears in the sorted sequence in the same order. -/
theorem C1_aggregation_sorted_ranked (st : AppState) (raw : List RawHolding) :
    ((processResults st raw).holders.Pairwise fun x y => y.balance ≤ x.balance)
    ∧ ((processResults st raw).holders.map fun h => h.rank)
        = List.range' 1 (processResults st raw).holders.length
    ∧ ((processResults st raw).holders.map fun h => (h.account, h.balance))
        = ((selectedHoldings raw st.excludeIssuer).map fun h => (h.account, h.balance))
    ∧ (∀ a b : RawHolding, a.balance = b.balance → [a, b].Sublist raw →
        [a, b].Sublist (sortedHoldings raw)) := by
  have hsel : (processResults st raw).holders
      = rankFrom (supplyBasisOf st.metricsTotalSupply) 0
          (selectedHoldings raw st.excludeIssuer) := rfl
  refine ⟨?_, ?_, ?_, ?_⟩
  · rw [hsel]
    have h1 := selectedHoldings_pairwise raw st.excludeIssuer
    have h2 : ((selectedHoldings raw st.excludeIssuer).map fun h => h.balance).Pairwise
        (fun x y : ℚ => y ≤ x) := List.pairwise_map.mpr h1
    rw [← rankFrom_map_balance (supplyBasisOf st.metricsTotalSupply) 0] at h2
    exact List.pairwise_map.mp h2
  · rw [hsel, rankFrom_length, rankFrom_map_rank]
  · rw [hsel, rankFrom_map_ab]
  · intro a b hab hsub
    exact List.pair_sublist_insertionSort (le_of_eq hab.symm) hsub

/-- Witness for C1: a two-element tie keeps its input order through the sort. -/
theorem C1_aggregation_sorted_ranked_witness :
    [(⟨"X", (5 : ℚ)⟩ : RawHolding), ⟨"Y", 5⟩].Sublist
      (sortedHoldings [⟨"X", 5⟩, ⟨"Y", 5⟩]) :=
  (C1_aggregation_sorted_ranked idleState [⟨"X", 5⟩, ⟨"Y", 5⟩]).2.2.2
    ⟨"X", 5⟩ ⟨"Y", 5⟩ rfl (List.Sublist.refl _)

/-! ### C2: no partial publication on cancellation -/

/-- C2: if the scan loop ends in the thrown-error case (in particular when the
cancellation signal is observed before a page fetch), startScan leaves the
previously published holder list unchanged and does not mark the scan
complete; the holder list is replaced, as one atomic unit, only when the loop
fully succeeds, and then it is exactly the aggregation of the full accumulated
record set. -/
theorem C2_atomic_publication (st : AppState) (batches : List Batch) (c : Option Nat)
    (hf : st.fetchStatus.isFetching = false) :
    (∀ (m : String) (fsE : FetchStatus) (tr : List FetchStatus),
      runLoop c (isBackground st) batches 0 [] (initialStatus st) [] = (.error m, fsE, tr) →
        (startScan st batches c).1.holders = st.holders
        ∧ (startScan st batches c).1.fetchStatus.complete = false)
    ∧ (∀ (allLines : List RawHolding) (fsE : FetchStatus) (tr : List FetchStatus),
      runLoop c (isBackground st) batches 0 [] (initialStatus st) [] = (.success allLines, fsE, tr) →
        (startScan st batches c).1.holders
          = rankFrom (supplyBasisOf st.metricsTotalSupply) 0
              (selectedHoldings allLines st.excludeIssuer)) := by
  constructor
  · intro m fsE tr h
    have hc := runLoop_complete c (isBackground st) batches 0 [] (initialStatus st) []
    rw [h] at hc
    unfold startScan
    rw [if_neg (by simp [hf])]
    simp only [h]
    exact ⟨trivial, hc⟩
  · intro allLines fsE tr h
    unfold startScan
    rw [if_neg (by simp [hf])]
    simp only [h]
    rfl

/-- Witness for C2: a cancellation observed before the first fetch leaves the
holder list unchanged and incomplete. -/
theorem C2_atomic_publication_witness :
    (startScan idleState [⟨[], some "m"⟩] (some 0)).1.holders = idleState.holders
    ∧ (startScan idleState [⟨[], some "m"⟩] (some 0)).1.fetchStatus.complete = false :=
  (C2_atomic_publication idleState [⟨[], some "m"⟩] (some 0) rfl).1
    "Scan aborted by user" (initialStatus idleState) [] (by decide)

/-! ### C3: cancellation outcome vs error outcome -/

/-- Counterexample to C3 as stated: when the loop itself observes the
cancellation signal (here before the very first fetch), the terminal state is
the error outcome, not a distinct aborted outcome: the status message is the
same "Error during scan." a genuine fetch failure produces (second conjunct
compares with a run whose fetch fails), and the cancellation is recorded as
the error detail. -/
theorem C3_counterexample :
    (startScan idleState [⟨[], some "m"⟩] (some 0)).1.fetchStatus.statusMessage
        = "Error during scan."
    ∧ (startScan idleState [⟨[], some "m"⟩] (some 0)).1.fetchStatus.statusMessage
        = (startScan idleState ([] : List Batch) none).1.fetchStatus.statusMessage
    ∧ (startScan idleState [⟨[], some "m"⟩] (some 0)).1.fetchStatus.error
        = some "Scan aborted by user" := by
  decide

/-- C3 as amended: when the loop detects the cancellation signal it throws,
and the shared catch block produces the same terminal shape as a genuine
fetch failure: status message "Error during scan.", the cancellation recorded
as error detail "Scan aborted by user", not complete, live update disabled.
The distinct "Scan stopped by user." message is produced only by the
user-facing stopScan path (which also disables live update), and is
overwritten if the loop's own cancellation check fires afterwards. -/
theorem C3_cancel_error_path (st : AppState) (batches : List Batch) (c : Option Nat)
    (hf : st.fetchStatus.isFetching = false) :
    (∀ (fsE : FetchStatus) (tr : List FetchStatus),
      runLoop c (isBackground st) batches 0 [] (initialStatus st) []
          = (.error "Scan aborted by user", fsE, tr) →
        (startScan st batches c).1.fetchStatus.statusMessage = "Error during scan."
        ∧ (startScan st batches c).1.fetchStatus.error = some "Scan aborted by user"
        ∧ (startScan st batches c).1.fetchStatus.complete = false
        ∧ (startScan st batches c).1.isLiveUpdate = false)
    ∧ (∀ s : AppState, s.abortArmed = true →
        (stopScan s).fetchStatus.statusMessage = "Scan stopped by user."
        ∧ (stopScan s).fetchStatus.complete = false
        ∧ (stopScan s).isLiveUpdate = false) := by
  constructor
  · intro fsE tr h
    have hc := runLoop_complete c (isBackground st) batches 0 [] (initialStatus st) []
    rw [h] at hc
    unfold startScan
    rw [if_neg (by simp [hf])]
    simp only [h]
    exact ⟨trivial, trivial, hc, trivial⟩
  · intro s hs
    unfold stopScan
    rw [if_pos hs]
    exact ⟨rfl, rfl, rfl⟩

/-- Witness for C3 (amended) at a concrete cancelled run and a concrete
stopScan call. -/
theorem C3_cancel_error_path_witness :
    ((startScan idleState [⟨[], some "m"⟩] (some 0)).1.fetchStatus.error
        = some "Scan aborted by user")
    ∧ (stopScan { idleState with abortArmed := true }).fetchStatus.statusMessage
        = "Scan stopped by user." :=
  ⟨((C3_cancel_error_path idleState [⟨[], some "m"⟩] (some 0) rfl).1
      (initialStatus idleState) [] (by decide)).2.1,
   ((C3_cancel_error_path idleState [⟨[], some "m"⟩] (some 0) rfl).2
      { idleState with abortArmed := true } rfl).1⟩

/-! ### C4: two-page round-trip fixture -/

/-- The two-page fixture: page 1 returns records A (balance "-500") and B
(balance "300") with a continuation cursor, page 2 returns C ("-100") with no
cursor. -/
def fixtureBatches : List Batch :=
  [ ⟨[⟨"A", "-500"⟩, ⟨"B", "300"⟩], some "m1"⟩,
    ⟨[⟨"C", "-100"⟩], none⟩ ]

/-- C4: running the scan loop on the two-page fixture and aggregating with
supplyBasis = 1000 (via the metrics snapshot) and excludeIssuer = false yields
exactly A with balance 500, rank 1, percentage 50 and C with balance 100,
rank 2, percentage 10; B is dropped because its signed balance is
non-negative. -/
theorem C4_fixture_roundtrip :
    ((startScan idleState fixtureBatches none).1.holders.map
        fun h => (h.account, h.balance, h.rank, h.percentage))
      = [("A", (500 : ℚ), 1, (50 : ℚ)), ("C", 100, 2, 10)] := by
  have h : (startScan idleState fixtureBatches none).1.holders
      = rankFrom (supplyBasisOf (some 1000)) 0 [⟨"A", 500⟩, ⟨"C", 100⟩] := rfl
  rw [h]
  norm_num [rankFrom, mkHolder, supplyBasisOf]

/-! ### C6: per-line mapping, filtering, and malformed balances -/

/-- C6: the mapping from trustline records to raw holdings takes the magnitude
of a negative parsed balance and maps any non-negative balance to zero; only
entries with balance > 0 survive the batch filter; a record whose balance
string fails to parse contributes balance zero and is silently dropped from
the batch; and whether the loop fails is independent of the line contents of
the pages (malformed balances never abort a scan). -/
theorem C6_balance_mapping :
    (∀ line : XRPLTrustline, parseFloat line.balance = none →
        (lineToHolding line).balance = 0)
    ∧ (∀ (line : XRPLTrustline) (v : ℚ), parseFloat line.balance = some v →
        (lineToHolding line).balance = if v < 0 then |v| else 0)
    ∧ (∀ (lines : List XRPLTrustline) (h : RawHolding),
        h ∈ processBatch lines → 0 < h.balance)
    ∧ (∀ (line : XRPLTrustline) (lines : List XRPLTrustline),
        parseFloat line.balance = none →
        processBatch (line :: lines) = processBatch lines)
    ∧ (∀ (c : Option Nat) (bg : Bool) (g : List XRPLTrustline → List XRPLTrustline)
        (batches : List Batch) (step : Nat) (acc1 acc2 : List RawHolding)
        (fs1 fs2 : FetchStatus) (tr1 tr2 : List FetchStatus),
        scanFailed (runLoop c bg (batches.map fun b => ⟨g b.lines, b.nextMarker⟩)
            step acc1 fs1 tr1).1
          = scanFailed (runLoop c bg batches step acc2 fs2 tr2).1) := by
  refine ⟨fun line h => ?_, fun line v h => ?_, fun lines h hm => ?_, fun line lines h => ?_,
    fun c bg g batches step acc1 acc2 fs1 fs2 tr1 tr2 => ?_⟩
  · unfold lineToHolding
    rw [h]
  · unfold lineToHolding
    rw [h]
  · have := List.of_mem_filter hm
    exact of_decide_eq_true this
  · unfold processBatch
    simp only [List.map_cons, List.filter_cons]
    have hz : (lineToHolding line).balance = 0 := by unfold lineToHolding; rw [h]
    simp [hz]
  · exact runLoop_failed_congr c bg g batches step acc1 acc2 fs1 fs2 tr1 tr2

/-- Witness for C6 at a malformed and a well-formed balance record. -/
theorem C6_balance_mapping_witness :
    ((lineToHolding ⟨"X", "oops"⟩).balance = 0)
    ∧ ((lineToHolding ⟨"Y", "-7"⟩).balance = if (-7 : ℚ) < 0 then |(-7 : ℚ)| else 0)
    ∧ (processBatch [⟨"X", "oops"⟩, ⟨"Y", "-7"⟩] = processBatch [⟨"Y", "-7"⟩]) :=
  ⟨C6_balance_mapping.1 ⟨"X", "oops"⟩ (by decide),
   C6_balance_mapping.2.1 ⟨"Y", "-7"⟩ (-7) (by decide),
   C6_balance_mapping.2.2.2.1 ⟨"X", "oops"⟩ [⟨"Y", "-7"⟩] (by decide)⟩

/-! ### C7: the issuer filter -/

theorem filter_ne_issuer_length (l : List RawHolding) :
    l.length = (l.filter fun h => h.account ≠ issuerAccount).length
      + l.countP (fun h => h.account = issuerAccount) := by
  induction l with
  | nil => rfl
  | cons x xs ih =>
    by_cases hx : x.account = issuerAccount <;>
      simp [List.filter_cons, List.countP_cons, hx, ih] <;> omega

/-- Aggregation state with the issuer filter on, used as a counterexample
input. -/
def issuerOnState : AppState :=
  { idleState with excludeIssuer := true }

/-- A raw input that contains the issuer account twice. -/
def issuerTwice : List RawHolding :=
  [⟨issuerAccount, 5⟩, ⟨issuerAccount, 3⟩]

/-- Counterexample to C7 as stated: on an input holding the issuer account
twice, aggregation with excludeIssuer = true removes both entries, not at most
one: the output is shorter than input length minus one. -/
theorem C7_counterexample :
    ¬ (issuerTwice.length - 1 ≤ (processResults issuerOnState issuerTwice).holders.length) := by
  decide

/-- C7 as amended: aggregation with excludeIssuer = true removes exactly the
entries whose account is the designated issuer account (so at most one entry
when the issuer occurs at most once in the input, the lengths differing by at
most one), and the surviving sequence is the non-excluded output with the
issuer entries deleted in place, every later entry shifting up (hence, with
ranks recomputed as positions, every subsequent rank drops accordingly);
excludeIssuer = false removes nothing: the account/balance content is a
permutation of the input. -/
theorem C7_issuer_filter (st : AppState) (raw : List RawHolding) :
    (st.excludeIssuer = false →
      List.Perm ((processResults st raw).holders.map fun h => (h.account, h.balance))
        (raw.map fun h => (h.account, h.balance)))
    ∧ (st.excludeIssuer = true →
      ((processResults st raw).holders.map fun h => (h.account, h.balance))
        = (((sortedHoldings raw).filter fun h => h.account ≠ issuerAccount).map
            fun h => (h.account, h.balance)))
    ∧ (st.excludeIssuer = true →
        raw.countP (fun h => h.account = issuerAccount) ≤ 1 →
        raw.length - 1 ≤ (processResults st raw).holders.length
        ∧ (processResults st raw).holders.length ≤ raw.length)
    ∧ (((processResults { st with excludeIssuer := true } raw).holders.map
          fun h => (h.account, h.balance))
        = ((processResults { st with excludeIssuer := false } raw).holders.map
            fun h => (h.account, h.balance)).filter fun p => p.1 ≠ issuerAccount) := by
  have hsel : ∀ e, (processResults { st with excludeIssuer := e } raw).holders
      = rankFrom (supplyBasisOf st.metricsTotalSupply) 0 (selectedHoldings raw e) :=
    fun e => rfl
  refine ⟨fun he => ?_, fun he => ?_, fun he hcount => ?_, ?_⟩
  · have h0 : (processResults st raw).holders
        = rankFrom (supplyBasisOf st.metricsTotalSupply) 0 (selectedHoldings raw false) := by
      rw [← he]; rfl
    rw [h0, rankFrom_map_ab]
    unfold selectedHoldings
    simp only [Bool.false_eq_true, if_false]
    exact (sortedHoldings_perm raw).map _
  · have h0 : (processResults st raw).holders
        = rankFrom (supplyBasisOf st.metricsTotalSupply) 0 (selectedHoldings raw true) := by
      rw [← he]; rfl
    rw [h0, rankFrom_map_ab]
    unfold selectedHoldings
    simp only [if_pos]
  · have h0 : (processResults st raw).holders
        = rankFrom (supplyBasisOf st.metricsTotalSupply) 0 (selectedHoldings raw true) := by
      rw [← he]; rfl
    have hpart := filter_ne_issuer_length (sortedHoldings raw)
    have hperm := (sortedHoldings_perm raw).length_eq
    have hcnt : (sortedHoldings raw).countP (fun h => h.account = issuerAccount)
        = raw.countP (fun h => h.account = issuerAccount) :=
      (sortedHoldings_perm raw).countP_eq _
    rw [h0, rankFrom_length]
    unfold selectedHoldings
    simp only [if_pos]
    omega
  · rw [hsel true, hsel false, rankFrom_map_ab, rankFrom_map_ab]
    unfold selectedHoldings
    simp only [Bool.false_eq_true, if_false, if_pos]
    rw [List.filter_map]
    rfl

/-- Witness for C7 on a concrete three-element input holding the issuer
once. -/
theorem C7_issuer_filter_witness :
    issuerTwice.head?.map (fun h => h.account) = some issuerAccount
    ∧ (([⟨issuerAccount, 5⟩, ⟨"X", 3⟩] : List RawHolding).length - 1
        ≤ (processResults issuerOnState [⟨issuerAccount, 5⟩, ⟨"X", 3⟩]).holders.length
      ∧ (processResults issuerOnState [⟨issuerAccount, 5⟩, ⟨"X", 3⟩]).holders.length
        ≤ ([⟨issuerAccount, 5⟩, ⟨"X", 3⟩] : List RawHolding).length) :=
  ⟨by decide,
   (C7_issuer_filter issuerOnState [⟨issuerAccount, 5⟩, ⟨"X", 3⟩]).2.2.1
     rfl (by decide)⟩

/-! ### C8: background rescans are quiet -/

/-- A state that already holds published data, as seen by a background
rescan. -/
def bgState : AppState :=
  { idleState with holders := [⟨1, "X", 5, 0, "Microbe", none, none⟩] }

/-- C8: with prior holder data (a background rescan) the loop publishes no
progress updates at all: the in-loop status is unchanged and the trace of
in-loop setFetchStatus calls is empty, over the whole startScan as well; an
initial scan (no prior data, no cancellation) publishes exactly one progress
status per page, carrying the cumulative count found so far. -/
theorem C8_background_quiet :
    (∀ (c : Option Nat) (batches : List Batch) (step : Nat) (acc : List RawHolding)
        (fs : FetchStatus) (tr : List FetchStatus),
      (runLoop c true batches step acc fs tr).2.1 = fs
      ∧ (runLoop c true batches step acc fs tr).2.2 = tr)
    ∧ (∀ (batches : List Batch) (step : Nat) (acc : List RawHolding) (fs : FetchStatus)
        (tr : List FetchStatus),
      (runLoop none false batches step acc fs tr).2.2 = tr ++ expectedTrace fs acc.length batches)
    ∧ (∀ (st : AppState) (batches : List Batch) (c : Option Nat),
      st.fetchStatus.isFetching = false → 0 < st.holders.length →
      (startScan st batches c).2 = []) := by
  refine ⟨fun c batches step acc fs tr => runLoop_bg_quiet c batches step acc fs tr,
    fun batches step acc fs tr => runLoop_fg_trace batches step acc fs tr,
    fun st batches c hf hl => ?_⟩
  have hbg : isBackground st = true := decide_eq_true hl
  unfold startScan
  rw [if_neg (by simp [hf]), hbg]
  have h2 := (runLoop_bg_quiet c batches 0 [] (initialStatus st) []).2
  rcases hr : runLoop c true batches 0 [] (initialStatus st) [] with ⟨o, fsE, tr⟩
  rw [hr] at h2
  simp only [hr]
  cases o <;> simpa using h2

/-- Witness for C8: a one-page background rescan publishes no in-loop status. -/
theorem C8_background_quiet_witness :
    (startScan bgState [⟨[⟨"Y", "-3"⟩], none⟩] none).2 = [] :=
  C8_background_quiet.2.2 bgState [⟨[⟨"Y", "-3"⟩], none⟩] none rfl (by decide)

/-! ### C9: the live-update scheduler -/

theorem sched_no_fire_before (ft : Nat) :
    ∀ (evs : List SchedEvent) (s : SchedState), s.pendingFire = some ft →
      (∀ e ∈ evs, ∃ u, e = SchedEvent.advance u ∧ u < ft) →
      (schedRun s evs).scanStarts = s.scanStarts ∧ (schedRun s evs).pendingFire = some ft
  | [], _, hp, _ => ⟨rfl, hp⟩
  | e :: evs, s, hp, hall => by
    obtain ⟨u, rfl, hu⟩ := hall e (List.mem_cons_self e evs)
    have hstep : schedStep s (.advance u) = { s with now := u } := by
      simp only [schedStep, hp]
      rw [if_neg (by omega : ¬ ft ≤ u)]
    rw [schedRun, hstep]
    exact sched_no_fire_before ft evs _ hp fun e he => hall e (List.mem_cons_of_mem _ he)

theorem sched_none_no_start :
    ∀ (evs : List SchedEvent) (s : SchedState), s.pendingFire = none →
      (∀ e ∈ evs, ∃ u, e = SchedEvent.advance u) →
      (schedRun s evs).scanStarts = s.scanStarts
  | [], _, _, _ => rfl
  | e :: evs, s, hp, hall => by
    obtain ⟨u, rfl⟩ := hall e (List.mem_cons_self e evs)
    have hstep : schedStep s (.advance u) = { s with now := u } := by
      simp only [schedStep, hp]
    rw [schedRun, hstep]
    exact sched_none_no_start evs _ hp fun e he => hall e (List.mem_cons_of_mem _ he)

/-- C9: the live-update scheduler.  When enabled, not fetching, and the last
scan is complete, a timer for the fixed 10000 ms cooldown is armed; while only
time short of the cooldown passes no scan starts; once the cooldown elapses the
timer fires and startScan runs exactly once; re-evaluating the effect with
live update disabled clears the pending timer and keeps it cleared (no rescan
ever starts from advances); when no holder data exists yet, startScan runs
immediately with no timer; and at most one timer is pending after any step. -/
theorem C9_live_update_scheduler :
    (∀ (s : SchedState) (t n : Nat),
        schedStep s (.depsChange ⟨true, false, true, n⟩ t)
          = { now := t, pendingFire := some (t + 10000), scanStarts := s.scanStarts })
    ∧ (∀ (s : SchedState) (t n : Nat) (evs : List SchedEvent),
        (∀ e ∈ evs, ∃ u, e = SchedEvent.advance u ∧ u < t + 10000) →
        (schedRun (schedStep s (.depsChange ⟨true, false, true, n⟩ t)) evs).scanStarts
          = s.scanStarts)
    ∧ (∀ (s : SchedState) (t n u : Nat), t + 10000 ≤ u →
        (schedStep (schedStep s (.depsChange ⟨true, false, true, n⟩ t))
            (.advance u)).scanStarts
          = s.scanStarts ++ [t + 10000])
    ∧ (∀ (s : SchedState) (d : Deps) (t : Nat), d.isLiveUpdate = false →
        (schedStep s (.depsChange d t)).pendingFire = none
        ∧ (schedStep s (.depsChange d t)).scanStarts = s.scanStarts)
    ∧ (∀ (s : SchedState) (evs : List SchedEvent), s.pendingFire = none →
        (∀ e ∈ evs, ∃ u, e = SchedEvent.advance u) →
        (schedRun s evs).scanStarts = s.scanStarts)
    ∧ (∀ (s : SchedState) (t : Nat),
        schedStep s (.depsChange ⟨true, false, false, 0⟩ t)
          = { now := t, pendingFire := none, scanStarts := s.scanStarts ++ [t] })
    ∧ (∀ (s : SchedState) (e : SchedEvent),
        ((schedStep s e).pendingFire.toList).length ≤ 1) := by
  refine ⟨fun s t n => rfl, fun s t n evs hall => ?_, fun s t n u hu => ?_,
    fun s d t hd => ?_, fun s evs hp hall => sched_none_no_start evs s hp hall,
    fun s t => rfl, fun s e => ?_⟩
  · have h1 : schedStep s (.depsChange ⟨true, false, true, n⟩ t)
        = { now := t, pendingFire := some (t + 10000), scanStarts := s.scanStarts } := rfl
    rw [h1]
    exact (sched_no_fire_before (t + 10000) evs _ rfl hall).1
  · have h1 : schedStep s (.depsChange ⟨true, false, true, n⟩ t)
        = { now := t, pendingFire := some (t + 10000), scanStarts := s.scanStarts } := rfl
    rw [h1]
    unfold schedStep
    simp only [if_pos hu]
  · have hact : liveUpdateAction d = .idle := by
      unfold liveUpdateAction
      rw [hd]
      rfl
    simp only [schedStep, hact]
    refine ⟨?_, ?_⟩ <;> first | rfl | trivial
  · cases he : (schedStep s e).pendingFire <;> simp

/-- Witness for C9: arming at time 5, advancing to 9 and 10004 does not start
a scan; advancing to 10005 fires it; disabling at time 7 prevents any start. -/
theorem C9_live_update_scheduler_witness :
    (schedRun (schedStep ⟨0, none, []⟩ (.depsChange ⟨true, false, true, 3⟩ 5))
        [.advance 9, .advance 10004]).scanStarts = []
    ∧ (schedStep (schedStep ⟨0, none, []⟩ (.depsChange ⟨true, false, true, 3⟩ 5))
        (.advance 10005)).scanStarts = [] ++ [5 + 10000]
    ∧ (schedRun (⟨7, none, []⟩ : SchedState) [.advance 20000]).scanStarts = []
    ∧ (schedStep ⟨0, none, []⟩ (.depsChange ⟨true, false, false, 0⟩ 2)).scanStarts = [] ++ [2] :=
  ⟨C9_live_update_scheduler.2.1 ⟨0, none, []⟩ 5 3 [.advance 9, .advance 10004]
      (by intro e he
          simp only [List.mem_cons, List.not_mem_nil, or_false] at he
          rcases he with rfl | rfl
          · exact ⟨9, rfl, by omega⟩
          · exact ⟨10004, rfl, by omega⟩),
   C9_live_update_scheduler.2.2.1 ⟨0, none, []⟩ 5 3 10005 (by omega),
   C9_live_update_scheduler.2.2.2.2.1 ⟨7, none, []⟩ [.advance 20000] rfl
      (by intro e he
          simp only [List.mem_cons, List.not_mem_nil, or_false] at he
          rcases he with rfl
          exact ⟨20000, rfl⟩),
   congrArg SchedState.scanStarts
     (C9_live_update_scheduler.2.2.2.2.2.1 ⟨0, none, []⟩ 2)⟩

/-! ### C10: the completion counter equals the published list length -/

/-- C10: whenever a startScan run ends complete, the linesFetched counter in
the final status equals the length of the published holder list (the count
after dropping non-positive balances and after issuer exclusion), not the raw
number of fetched records. -/
theorem C10_complete_count (st : AppState) (batches : List Batch) (c : Option Nat)
    (hf : st.fetchStatus.isFetching = false)
    (hc : (startScan st batches c).1.fetchStatus.complete = true) :
    (startScan st batches c).1.fetchStatus.linesFetched
      = (startScan st batches c).1.holders.length := by
  have hcl := runLoop_complete c (isBackground st) batches 0 [] (initialStatus st) []
  rcases hr : runLoop c (isBackground st) batches 0 [] (initialStatus st) [] with ⟨o, fsE, tr⟩
  rw [hr] at hcl
  have hcl2 : fsE.complete = false := hcl
  cases o with
  | success allLines =>
    unfold startScan
    rw [if_neg (by simp [hf])]
    simp only [hr]
    rfl
  | error m =>
    exfalso
    unfold startScan at hc
    rw [if_neg (by simp [hf])] at hc
    simp only [hr] at hc
    have hc2 : fsE.complete = true := hc
    rw [hcl2] at hc2
    exact Bool.noConfusion hc2

/-- Witness for C10 on a one-page successful scan of a single negative-balance
record. -/
theorem C10_complete_count_witness :
    idleState.fetchStatus.isFetching = false
    ∧ (startScan idleState [⟨[⟨"X", "-5"⟩], none⟩] none).1.fetchStatus.complete = true
    ∧ (startScan idleState [⟨[⟨"X", "-5"⟩], none⟩] none).1.fetchStatus.linesFetched
      = (startScan idleState [⟨[⟨"X", "-5"⟩], none⟩] none).1.holders.length :=
  ⟨rfl, by decide,
   C10_complete_count idleState [⟨[⟨"X", "-5"⟩], none⟩] none rfl (by decide)⟩

end CasinocoinCentral
